import Mathlib

/-!
Shallow embedding of `src/api/proxypanel/proxypanel.go` (package `proxypanel`
of the XrayR repository): the ProxyPanel control-plane client.

Modelling conventions:
* Go `int` / `int64` / `uint64` values are modelled as `Int` (no claim under
  verification involves machine-integer overflow).
* Go's mutable `map[int]int` field `LastReportOnline` is modelled as an
  association list `List (Int × Int)`; map lookup / insert / delete are the
  explicit functions below.  Stateful methods return the updated map.
* The resty HTTP transport is an external collaborator: each operation takes
  the transport outcome (`Option String` for a request error, plus the raw
  response) as an input and returns the list of request paths it issued.
* `encoding/json` is modelled by the `Json` value type below with Go's
  struct-decoding semantics (a missing object field leaves the zero value, a
  type-mismatched field fails the whole decode, decoding is atomic).
* The Go regexp engine is external; pattern-compilation success is a
  parameter `compileOk : String → Bool`, and a compiled pattern is modelled
  by its source string.  `regexp.MustCompile` aborting the process on a bad
  pattern is the `aborted` outcome below.
-/

namespace ProxyPanel

/-- JSON values, modelling `encoding/json` payloads (`json.RawMessage`). -/
inductive Json where
  | null : Json
  | bool : Bool → Json
  | num : Int → Json
  | str : String → Json
  | arr : List Json → Json
  | obj : List (String × Json) → Json

mutual

/-- Serialization of a JSON value, modelling `json.Marshal`. -/
def jsonSerialize : Json → String
  | .null => "null"
  | .bool b => if b then "true" else "false"
  | .num n => toString n
  | .str s => "\x22" ++ s ++ "\x22"
  | .arr xs => "[" ++ jsonSerializeList xs ++ "]"
  | .obj fs => "\x7b" ++ jsonSerializeFields fs ++ "\x7d"

/-- Serialization of the elements of a JSON array, comma separated. -/
def jsonSerializeList : List Json → String
  | [] => ""
  | [x] => jsonSerialize x
  | x :: y :: xs => jsonSerialize x ++ "," ++ jsonSerializeList (y :: xs)

/-- Serialization of the fields of a JSON object, comma separated. -/
def jsonSerializeFields : List (String × Json) → String
  | [] => ""
  | [f] => "\x22" ++ f.1 ++ "\x22:" ++ jsonSerialize f.2
  | f :: g :: fs =>
      "\x22" ++ f.1 ++ "\x22:" ++ jsonSerialize f.2 ++ "," ++ jsonSerializeFields (g :: fs)

end

/-- Field lookup in a JSON object (`none` when the value is not an object or
the key is absent). -/
def jsonField : Json → String → Option Json
  | .obj fs, k => (fs.find? (fun f => f.1 == k)).map (fun f => f.2)
  | _, _ => none

/-- Decoding of a Go `int`-typed struct field, with `encoding/json` semantics:
an absent or `null` field leaves the zero value, a number is taken as is, any
other JSON type is a decode error. -/
def decodeIntField (j : Json) (k : String) : Option Int :=
  match jsonField j k with
  | none => some 0
  | some .null => some 0
  | some (.num n) => some n
  | some _ => none

/-- Decoding of a Go `string`-typed struct field, with `encoding/json`
semantics (see `decodeIntField`). -/
def decodeStrField (j : Json) (k : String) : Option String :=
  match jsonField j k with
  | none => some ""
  | some .null => some ""
  | some (.str s) => some s
  | some _ => none

/-- `api.DetectRule`: a detection rule.  The compiled `*regexp.Regexp` is
modelled by the source string of the pattern. -/
structure DetectRule where
  ID : Int
  Pattern : String
  deriving DecidableEq

/-- `api.UserInfo` (the fields the proxypanel adapters populate). -/
structure UserInfo where
  UID : Int
  Email : String
  Passwd : String
  UUID : String
  DeviceLimit : Int
  SpeedLimit : Int
  deriving DecidableEq

/-- `api.OnlineUser`: one reported online session. -/
structure OnlineUser where
  UID : Int
  IP : String
  deriving DecidableEq

/-- `api.UserTraffic` (the fields `ReportUserTraffic` copies). -/
structure UserTraffic where
  UID : Int
  Upload : Int
  Download : Int
  deriving DecidableEq

/-- `api.DetectResult`: one detected violation. -/
structure DetectResult where
  UID : Int
  RuleID : Int
  deriving DecidableEq

/-- `IllegalReport`: the body posted by `ReportIllegal` for one violation. -/
structure IllegalReport where
  RuleID : Int
  UID : Int
  Reason : String
  deriving DecidableEq

/-- `VMessUser`: one record of the V2ray user-list payload.  The struct
declaration lives outside `src/`; the fields are the ones
`ParseV2rayUserListResponse` reads. -/
structure VMessUser where
  UID : Int
  VmessUID : String
  SpeedLimit : Int
  DeviceLimit : Int
  OnlineCount : Int
  deriving DecidableEq

/-- `TrojanUser`: one record of the Trojan user-list payload (fields read by
`ParseTrojanUserListResponse`). -/
structure TrojanUser where
  UID : Int
  Password : String
  SpeedLimit : Int
  DeviceLimit : Int
  OnlineCount : Int
  deriving DecidableEq

/-- `SSUser`: one record of the Shadowsocks user-list payload.
`ParseSSUserListResponse` reads only `UID`, `Password` and `SpeedLimit`;
the `DeviceLimit` and `OnlineCount` fields are modelled from the spec
(§3 user records and the §4.1 field-mapping policy say the payload supplies a
per-user device-limit and an online count), since the struct declaration is
outside `src/`. -/
structure SSUser where
  UID : Int
  Password : String
  SpeedLimit : Int
  DeviceLimit : Int
  OnlineCount : Int
  deriving DecidableEq

/-- `NodeRule` item: one panel-supplied rule (struct declared outside `src/`;
fields are the ones `GetNodeRule` reads).  `RuleType` models the Go field
named `Type` (that name is reserved in Lean). -/
structure NodeRuleItem where
  ID : Int
  RuleType : String
  Pattern : String
  deriving DecidableEq

/-- `NodeRule`: the panel rule-set descriptor (mode + rules). -/
structure NodeRule where
  Mode : String
  Rules : List NodeRuleItem
  deriving DecidableEq

/-- `Response`: the panel's outer JSON envelope.  Modelled from the spec:
the envelope is `\x7bstatus, message?, data\x7d` (§6); the code reads `Status` and
`Data` (`json.RawMessage`). -/
structure Response where
  Status : String
  Data : Json

/-- The part of a `resty.Response` that `parseResponse` consumes: the HTTP
status code, the raw body, and the decoded `Response` envelope
(`res.Result()`). -/
structure RestyResponse where
  statusCode : Int
  body : String
  result : Response

/-- The error taxonomy of the module.  Each constructor corresponds to one
`fmt.Errorf` site (the Go code returns flat `error` values; the constructors
record which site produced the error and what data it carries; the
`APIHost` prefix that `assembleURL` adds to the path is omitted). -/
inductive PPError where
  | requestError : String → String → PPError
  | statusCodeError : String → String → PPError
  | envelopeError : String → PPError
  | unsupportedNodeType : String → PPError
  | decodeError : String → PPError
  deriving DecidableEq

/-- Transport-level failures (claim C5's terminology): the two error sites of
`parseResponse` that fire before the envelope is examined. -/
def isTransportFailure : PPError → Bool
  | .requestError _ _ => true
  | .statusCodeError _ _ => true
  | _ => false

/-- `APIClient`: the client state (the resty client handle and the mutex are
not modelled; `SpeedLimit` is Go `float64`, modelled as `Int`). -/
structure APIClient where
  APIHost : String
  NodeID : Int
  Key : String
  NodeType : String
  EnableVless : Bool
  EnableXTLS : Bool
  SpeedLimit : Int
  DeviceLimit : Int
  LocalRuleList : List DetectRule
  LastReportOnline : List (Int × Int)

/-- `parseResponse`: transport error first, then the `> 400` status-code
check, then envelope validation (`response.Status != "success"`). -/
def parseResponse (err : Option String) (res : RestyResponse) (path : String) :
    Except PPError Response :=
  match err with
  | some e => .error (.requestError path e)
  | none =>
    if 400 < res.statusCode then
      .error (.statusCodeError path res.body)
    else if res.result.Status ≠ "success" then
      .error (.envelopeError (jsonSerialize (Json.obj
        [("status", Json.str res.result.Status), ("data", res.result.Data)])))
    else
      .ok res.result

/-- The `switch c.NodeType` of `GetNodeInfo`. -/
def getNodeInfoPath (c : APIClient) : Except PPError String :=
  if c.NodeType = "V2ray" then .ok ("/api/v2ray/v1/node/" ++ toString c.NodeID)
  else if c.NodeType = "Trojan" then .ok ("/api/trojan/v1/node/" ++ toString c.NodeID)
  else if c.NodeType = "Shadowsocks" then .ok ("/api/ss/v1/node/" ++ toString c.NodeID)
  else .error (.unsupportedNodeType c.NodeType)

/-- The `switch c.NodeType` of `GetUserList`. -/
def getUserListPath (c : APIClient) : Except PPError String :=
  if c.NodeType = "V2ray" then .ok ("/api/v2ray/v1/userList/" ++ toString c.NodeID)
  else if c.NodeType = "Trojan" then .ok ("/api/trojan/v1/userList/" ++ toString c.NodeID)
  else if c.NodeType = "Shadowsocks" then .ok ("/api/ss/v1/userList/" ++ toString c.NodeID)
  else .error (.unsupportedNodeType c.NodeType)

/-- The `switch c.NodeType` of `ReportNodeStatus`. -/
def reportNodeStatusPath (c : APIClient) : Except PPError String :=
  if c.NodeType = "V2ray" then .ok ("/api/v2ray/v1/nodeStatus/" ++ toString c.NodeID)
  else if c.NodeType = "Trojan" then .ok ("/api/trojan/v1/nodeStatus/" ++ toString c.NodeID)
  else if c.NodeType = "Shadowsocks" then .ok ("/api/ss/v1/nodeStatus/" ++ toString c.NodeID)
  else .error (.unsupportedNodeType c.NodeType)

/-- The `switch c.NodeType` of `ReportNodeOnlineUsers`. -/
def nodeOnlinePath (c : APIClient) : Except PPError String :=
  if c.NodeType = "V2ray" then .ok ("/api/v2ray/v1/nodeOnline/" ++ toString c.NodeID)
  else if c.NodeType = "Trojan" then .ok ("/api/trojan/v1/nodeOnline/" ++ toString c.NodeID)
  else if c.NodeType = "Shadowsocks" then .ok ("/api/ss/v1/nodeOnline/" ++ toString c.NodeID)
  else .error (.unsupportedNodeType c.NodeType)

/-- The `switch c.NodeType` of `ReportUserTraffic`. -/
def userTrafficPath (c : APIClient) : Except PPError String :=
  if c.NodeType = "V2ray" then .ok ("/api/v2ray/v1/userTraffic/" ++ toString c.NodeID)
  else if c.NodeType = "Trojan" then .ok ("/api/trojan/v1/userTraffic/" ++ toString c.NodeID)
  else if c.NodeType = "Shadowsocks" then .ok ("/api/ss/v1/userTraffic/" ++ toString c.NodeID)
  else .error (.unsupportedNodeType c.NodeType)

/-- The `switch c.NodeType` of `GetNodeRule`. -/
def nodeRulePath (c : APIClient) : Except PPError String :=
  if c.NodeType = "V2ray" then .ok ("/api/v2ray/v1/nodeRule/" ++ toString c.NodeID)
  else if c.NodeType = "Trojan" then .ok ("/api/trojan/v1/nodeRule/" ++ toString c.NodeID)
  else if c.NodeType = "Shadowsocks" then .ok ("/api/ss/v1/nodeRule/" ++ toString c.NodeID)
  else .error (.unsupportedNodeType c.NodeType)

/-- The `switch c.NodeType` of `ReportIllegal`. -/
def triggerPath (c : APIClient) : Except PPError String :=
  if c.NodeType = "V2ray" then .ok ("/api/v2ray/v1/trigger/" ++ toString c.NodeID)
  else if c.NodeType = "Trojan" then .ok ("/api/trojan/v1/trigger/" ++ toString c.NodeID)
  else if c.NodeType = "Shadowsocks" then .ok ("/api/ss/v1/trigger/" ++ toString c.NodeID)
  else .error (.unsupportedNodeType c.NodeType)

/-- Spec-side definition (§6): the protocol segment of the endpoint template
`/api/\x7bprotocolSegment\x7d/v1/\x7boperation\x7d/\x7bnodeId\x7d`, defined for the three known
node types. -/
def protocolSegment (t : String) : Option String :=
  if t = "V2ray" then some "v2ray"
  else if t = "Trojan" then some "trojan"
  else if t = "Shadowsocks" then some "ss"
  else none

/-- Lookup in the `LastReportOnline` association list, modelling
`v, ok := m[uid]` on the Go map. -/
def lookupOnline : List (Int × Int) → Int → Option Int
  | [], _ => none
  | p :: rest, uid => if p.1 = uid then some p.2 else lookupOnline rest uid

/-- The `lastOnline := 0; if v, ok := c.LastReportOnline[uid]; ok` idiom of the
user-list loops: the retained count for `uid`, `0` if absent. -/
def onlineP (st : List (Int × Int)) (uid : Int) : Int :=
  (lookupOnline st uid).getD 0

/-- `delete(c.LastReportOnline, uid)`. -/
def eraseOnline (st : List (Int × Int)) (uid : Int) : List (Int × Int) :=
  st.filter (fun p => p.1 ≠ uid)

/-- One step of the counting loop of `ReportNodeOnlineUsers`:
`if _, ok := reportOnline[uid]; ok \x7b reportOnline[uid]++ \x7d else \x7b reportOnline[uid] = 1 \x7d`. -/
def incrReport (m : List (Int × Int)) (uid : Int) : List (Int × Int) :=
  match lookupOnline m uid with
  | some _ => m.map (fun p => if p.1 = uid then (p.1, p.2 + 1) else p)
  | none => m ++ [(uid, 1)]

/-- The fresh `reportOnline` map built by `ReportNodeOnlineUsers` from the
reported session list: each user id mapped to its number of occurrences. -/
def buildReportOnline (l : List OnlineUser) : List (Int × Int) :=
  l.foldl (fun m u => incrReport m u.UID) []

/-- Number of occurrences of `uid` in a reported session list (spec-side
counting function; the Go map values are `int`, so the count is `Int`). -/
def occCount : List OnlineUser → Int → Int
  | [], _ => 0
  | u :: rest, uid => (if u.UID = uid then 1 else 0) + occCount rest uid

/-- The effective speed limit of a V2ray user:
`if c.SpeedLimit > 0 \x7b c.SpeedLimit*1000000/8 \x7d else \x7b user.SpeedLimit \x7d`. -/
def v2SpeedEff (c : APIClient) (u : VMessUser) : Int :=
  if 0 < c.SpeedLimit then c.SpeedLimit * 1000000 / 8 else u.SpeedLimit

/-- The base device limit of a V2ray user:
`if c.DeviceLimit > 0 \x7b c.DeviceLimit \x7d else \x7b user.DeviceLimit \x7d`. -/
def v2BaseLimit (c : APIClient) (u : VMessUser) : Int :=
  if 0 < c.DeviceLimit then c.DeviceLimit else u.DeviceLimit

/-- The effective speed limit of a Trojan user (same policy as V2ray). -/
def trSpeedEff (c : APIClient) (u : TrojanUser) : Int :=
  if 0 < c.SpeedLimit then c.SpeedLimit * 1000000 / 8 else u.SpeedLimit

/-- The base device limit of a Trojan user (same policy as V2ray). -/
def trBaseLimit (c : APIClient) (u : TrojanUser) : Int :=
  if 0 < c.DeviceLimit then c.DeviceLimit else u.DeviceLimit

/-- The effective speed limit of a Shadowsocks user (same policy as V2ray). -/
def ssSpeedEff (c : APIClient) (u : SSUser) : Int :=
  if 0 < c.SpeedLimit then c.SpeedLimit * 1000000 / 8 else u.SpeedLimit

/-- The `api.UserInfo` record appended for a V2ray user. -/
def vmessUserInfo (u : VMessUser) (devicelimit speedlimit : Int) : UserInfo :=
  ⟨u.UID, "", "", u.VmessUID, devicelimit, speedlimit⟩

/-- The `api.UserInfo` record appended for a Trojan user. -/
def trojanUserInfo (u : TrojanUser) (devicelimit speedlimit : Int) : UserInfo :=
  ⟨u.UID, "", "", u.Password, devicelimit, speedlimit⟩

/-- The `api.UserInfo` record built for a Shadowsocks user. -/
def ssUserInfo (u : SSUser) (devicelimit speedlimit : Int) : UserInfo :=
  ⟨u.UID, "", u.Password, "", devicelimit, speedlimit⟩

/-- The user loop of `ParseV2rayUserListResponse` (lines 564–597): device-limit
reconciliation against the retained state `st` (`c.LastReportOnline`), threaded
through because the loop deletes stale entries. -/
def parseV2rayUsersLoop (c : APIClient) :
    List VMessUser → List (Int × Int) → List UserInfo × List (Int × Int)
  | [], st => ([], st)
  | user :: rest, st =>
    if 0 < v2BaseLimit c user ∧ 0 < user.OnlineCount then
      if 0 < v2BaseLimit c user - user.OnlineCount + onlineP st user.UID then
        (vmessUserInfo user (v2BaseLimit c user - user.OnlineCount + onlineP st user.UID)
            (v2SpeedEff c user) :: (parseV2rayUsersLoop c rest st).1,
          (parseV2rayUsersLoop c rest st).2)
      else if 0 < onlineP st user.UID then
        (vmessUserInfo user (onlineP st user.UID) (v2SpeedEff c user) ::
            (parseV2rayUsersLoop c rest st).1,
          (parseV2rayUsersLoop c rest st).2)
      else
        parseV2rayUsersLoop c rest st
    else if user.OnlineCount = 0 ∧ (lookupOnline st user.UID).isSome = true then
      (vmessUserInfo user (v2BaseLimit c user) (v2SpeedEff c user) ::
          (parseV2rayUsersLoop c rest (eraseOnline st user.UID)).1,
        (parseV2rayUsersLoop c rest (eraseOnline st user.UID)).2)
    else
      (vmessUserInfo user (v2BaseLimit c user) (v2SpeedEff c user) ::
          (parseV2rayUsersLoop c rest st).1,
        (parseV2rayUsersLoop c rest st).2)

/-- The user loop of `ParseTrojanUserListResponse` (lines 613–646), a verbatim
copy of the V2ray loop over `TrojanUser` records. -/
def parseTrojanUsersLoop (c : APIClient) :
    List TrojanUser → List (Int × Int) → List UserInfo × List (Int × Int)
  | [], st => ([], st)
  | user :: rest, st =>
    if 0 < trBaseLimit c user ∧ 0 < user.OnlineCount then
      if 0 < trBaseLimit c user - user.OnlineCount + onlineP st user.UID then
        (trojanUserInfo user (trBaseLimit c user - user.OnlineCount + onlineP st user.UID)
            (trSpeedEff c user) :: (parseTrojanUsersLoop c rest st).1,
          (parseTrojanUsersLoop c rest st).2)
      else if 0 < onlineP st user.UID then
        (trojanUserInfo user (onlineP st user.UID) (trSpeedEff c user) ::
            (parseTrojanUsersLoop c rest st).1,
          (parseTrojanUsersLoop c rest st).2)
      else
        parseTrojanUsersLoop c rest st
    else if user.OnlineCount = 0 ∧ (lookupOnline st user.UID).isSome = true then
      (trojanUserInfo user (trBaseLimit c user) (trSpeedEff c user) ::
          (parseTrojanUsersLoop c rest (eraseOnline st user.UID)).1,
        (parseTrojanUsersLoop c rest (eraseOnline st user.UID)).2)
    else
      (trojanUserInfo user (trBaseLimit c user) (trSpeedEff c user) ::
          (parseTrojanUsersLoop c rest st).1,
        (parseTrojanUsersLoop c rest st).2)

/-- The user loop of `ParseSSUserListResponse` (lines 660–674): a plain map,
with `DeviceLimit: c.DeviceLimit` taken unconditionally from the client. -/
def parseSSUsersLoop (c : APIClient) : List SSUser → List UserInfo
  | [] => []
  | user :: rest => ssUserInfo user c.DeviceLimit (ssSpeedEff c user) :: parseSSUsersLoop c rest

/-- All-or-nothing decoding of a JSON array's elements, modelling
`json.Unmarshal` into a Go slice composed with the error check at the call
site: any failing element fails the whole list. -/
def decodeAll (f : Json → Option α) : List Json → Option (List α)
  | [] => some []
  | x :: xs =>
    match f x, decodeAll f xs with
    | some a, some ys => some (a :: ys)
    | _, _ => none

/-- Decoding of one `VMessUser` record (field keys stand for the struct's
JSON tags, which are declared outside `src/`).  A JSON `null` element would
decode to a nil pointer whose later field access faults; the model folds that
into decode failure. -/
def decodeVMessUser (j : Json) : Option VMessUser :=
  match j with
  | .obj _ =>
    match decodeIntField j "uid", decodeStrField j "vmess_uid", decodeIntField j "speed_limit",
        decodeIntField j "device_limit", decodeIntField j "online_count" with
    | some uid, some vu, some sl, some dl, some oc => some ⟨uid, vu, sl, dl, oc⟩
    | _, _, _, _, _ => none
  | _ => none

/-- Decoding of one `TrojanUser` record (see `decodeVMessUser`). -/
def decodeTrojanUser (j : Json) : Option TrojanUser :=
  match j with
  | .obj _ =>
    match decodeIntField j "uid", decodeStrField j "password", decodeIntField j "speed_limit",
        decodeIntField j "device_limit", decodeIntField j "online_count" with
    | some uid, some pw, some sl, some dl, some oc => some ⟨uid, pw, sl, dl, oc⟩
    | _, _, _, _, _ => none
  | _ => none

/-- Decoding of one `SSUser` record (see `decodeVMessUser` and the `SSUser`
doc comment). -/
def decodeSSUser (j : Json) : Option SSUser :=
  match j with
  | .obj _ =>
    match decodeIntField j "uid", decodeStrField j "password", decodeIntField j "speed_limit",
        decodeIntField j "device_limit", decodeIntField j "online_count" with
    | some uid, some pw, some sl, some dl, some oc => some ⟨uid, pw, sl, dl, oc⟩
    | _, _, _, _, _ => none
  | _ => none

/-- `json.Unmarshal` of the user-list payload into a V2ray user slice. -/
def decodeVMessUserList (j : Json) : Option (List VMessUser) :=
  match j with
  | .arr xs => decodeAll decodeVMessUser xs
  | .null => some []
  | _ => none

/-- `json.Unmarshal` of the user-list payload into a Trojan user slice. -/
def decodeTrojanUserList (j : Json) : Option (List TrojanUser) :=
  match j with
  | .arr xs => decodeAll decodeTrojanUser xs
  | .null => some []
  | _ => none

/-- `json.Unmarshal` of the user-list payload into a Shadowsocks user slice. -/
def decodeSSUserList (j : Json) : Option (List SSUser) :=
  match j with
  | .arr xs => decodeAll decodeSSUser xs
  | .null => some []
  | _ => none

/-- `ParseV2rayUserListResponse`: unmarshal the payload (failing atomically),
then run the reconciliation loop.  Returns the result and the (possibly
mutated) `LastReportOnline` map. -/
def ParseV2rayUserListResponse (c : APIClient) (data : Json) :
    Except PPError (List UserInfo) × List (Int × Int) :=
  match decodeVMessUserList data with
  | none => (.error (.decodeError "Unmarshal VMessUser failed"), c.LastReportOnline)
  | some users =>
    ((Except.ok (parseV2rayUsersLoop c users c.LastReportOnline).1),
      (parseV2rayUsersLoop c users c.LastReportOnline).2)

/-- `ParseTrojanUserListResponse` (see `ParseV2rayUserListResponse`). -/
def ParseTrojanUserListResponse (c : APIClient) (data : Json) :
    Except PPError (List UserInfo) × List (Int × Int) :=
  match decodeTrojanUserList data with
  | none => (.error (.decodeError "Unmarshal TrojanUser failed"), c.LastReportOnline)
  | some users =>
    ((Except.ok (parseTrojanUsersLoop c users c.LastReportOnline).1),
      (parseTrojanUsersLoop c users c.LastReportOnline).2)

/-- `ParseSSUserListResponse`: unmarshal, then the plain map; the retained
state is neither read nor mutated. -/
def ParseSSUserListResponse (c : APIClient) (data : Json) :
    Except PPError (List UserInfo) × List (Int × Int) :=
  match decodeSSUserList data with
  | none => (.error (.decodeError "Unmarshal SSUser failed"), c.LastReportOnline)
  | some users => (.ok (parseSSUsersLoop c users), c.LastReportOnline)

/-- Outcome of `GetUserList`: the request paths issued, the result, and the
`LastReportOnline` map after the call. -/
structure UserListOutcome where
  requests : List String
  result : Except PPError (List UserInfo)
  lastReportOnline : List (Int × Int)

/-- `GetUserList` (lines 190–228): node-type dispatch, envelope validation,
then the protocol-specific user-list parse; a parse failure is wrapped as
`Parse user list failed: ...` with the serialized payload. -/
def GetUserList (c : APIClient) (err : Option String) (res : RestyResponse) : UserListOutcome :=
  match getUserListPath c with
  | .error e => ⟨[], .error e, c.LastReportOnline⟩
  | .ok path =>
    match parseResponse err res path with
    | .error e => ⟨[path], .error e, c.LastReportOnline⟩
    | .ok response =>
      if c.NodeType = "V2ray" then
        match ParseV2rayUserListResponse c response.Data with
        | (.error _, st) =>
          ⟨[path], .error (.decodeError ("Parse user list failed: " ++ jsonSerialize response.Data)), st⟩
        | (.ok ul, st) => ⟨[path], .ok ul, st⟩
      else if c.NodeType = "Trojan" then
        match ParseTrojanUserListResponse c response.Data with
        | (.error _, st) =>
          ⟨[path], .error (.decodeError ("Parse user list failed: " ++ jsonSerialize response.Data)), st⟩
        | (.ok ul, st) => ⟨[path], .ok ul, st⟩
      else if c.NodeType = "Shadowsocks" then
        match ParseSSUserListResponse c response.Data with
        | (.error _, st) =>
          ⟨[path], .error (.decodeError ("Parse user list failed: " ++ jsonSerialize response.Data)), st⟩
        | (.ok ul, st) => ⟨[path], .ok ul, st⟩
      else ⟨[path], .error (.unsupportedNodeType c.NodeType), c.LastReportOnline⟩

/-- `GetNodeInfo` up to envelope validation.  The downstream node-payload
normalization (`ParseV2rayNodeResponse` and friends) is not reached by any
claim under verification and is not modelled; the operation returns the
validated envelope instead of the normalized node config. -/
def GetNodeInfo (c : APIClient) (err : Option String) (res : RestyResponse) :
    List String × Except PPError Response :=
  match getNodeInfoPath c with
  | .error e => ([], .error e)
  | .ok path =>
    match parseResponse err res path with
    | .error e => ([path], .error e)
    | .ok response => ([path], .ok response)

/-- `ReportNodeStatus`: dispatch, post, envelope validation.  The body (the
percent-formatted `NodeStatus` strings) is not touched by any claim and is
not modelled. -/
def ReportNodeStatus (c : APIClient) (err : Option String) (res : RestyResponse) :
    List String × Except PPError Unit :=
  match reportNodeStatusPath c with
  | .error e => ([], .error e)
  | .ok path =>
    match parseResponse err res path with
    | .error e => ([path], .error e)
    | .ok _ => ([path], .ok ())

/-- `ReportUserTraffic`: dispatch, post, envelope validation (the body is a
field-identical copy of the input list and is not modelled). -/
def ReportUserTraffic (c : APIClient) (_userTraffic : List UserTraffic)
    (err : Option String) (res : RestyResponse) : List String × Except PPError Unit :=
  match userTrafficPath c with
  | .error e => ([], .error e)
  | .ok path =>
    match parseResponse err res path with
    | .error e => ([path], .error e)
    | .ok _ => ([path], .ok ())

/-- `ReportNodeOnlineUsers` (lines 266–303): dispatch, then the retained-state
map is rebuilt from the report and assigned to `c.LastReportOnline` *before*
the POST is issued.  Returns the new map, the request paths issued, and the
result. -/
def ReportNodeOnlineUsers (c : APIClient) (onlineUserList : List OnlineUser)
    (err : Option String) (res : RestyResponse) :
    List (Int × Int) × List String × Except PPError Unit :=
  match nodeOnlinePath c with
  | .error e => (c.LastReportOnline, [], .error e)
  | .ok path =>
    match parseResponse err res path with
    | .error e => (buildReportOnline onlineUserList, [path], .error e)
    | .ok _ => (buildReportOnline onlineUserList, [path], .ok ())

/-- Outcome of the rule fetch: the merged rule list, an error, or a process
abort (`regexp.MustCompile` panicking on a pattern that fails to compile). -/
inductive RuleListOutcome where
  | ok : List DetectRule → RuleListOutcome
  | err : PPError → RuleListOutcome
  | aborted : String → RuleListOutcome
  deriving DecidableEq

/-- The `for _, r := range ruleListResponse.Rules` loop of `GetNodeRule`:
rules of type `"reg"` are appended (with `regexp.MustCompile` aborting on a
pattern that fails to compile), all other types are skipped. -/
def appendPanelRules (compileOk : String → Bool) (acc : List DetectRule) :
    List NodeRuleItem → RuleListOutcome
  | [] => .ok acc
  | r :: rest =>
    if r.RuleType = "reg" then
      if compileOk r.Pattern then
        appendPanelRules compileOk (acc ++ [⟨r.ID, r.Pattern⟩]) rest
      else .aborted r.Pattern
    else appendPanelRules compileOk acc rest

/-- Decoding of one panel rule item. -/
def decodeNodeRuleItem (j : Json) : Option NodeRuleItem :=
  match j with
  | .obj _ =>
    match decodeIntField j "id", decodeStrField j "type", decodeStrField j "pattern" with
    | some i, some t, some p => some ⟨i, t, p⟩
    | _, _, _ => none
  | _ => none

/-- Decoding of the `NodeRule` payload (field keys stand for JSON tags
declared outside `src/`). -/
def decodeNodeRule (j : Json) : Option NodeRule :=
  match j with
  | .obj _ =>
    match decodeStrField j "mode", jsonField j "rules" with
    | some mode, none => some ⟨mode, []⟩
    | some mode, some .null => some ⟨mode, []⟩
    | some mode, some (.arr xs) =>
      match decodeAll decodeNodeRuleItem xs with
      | some rules => some ⟨mode, rules⟩
      | none => none
    | _, _ => none
  | _ => none

/-- Outcome of `GetNodeRule`. -/
structure NodeRuleOutcome where
  requests : List String
  result : RuleListOutcome
  deriving DecidableEq

/-- `GetNodeRule` (lines 341–386): dispatch, envelope validation, unmarshal of
the rule descriptor, then: non-`"reject"` mode returns the local rule list
unchanged; `"reject"` mode appends the panel's `"reg"`-typed rules. -/
def GetNodeRule (c : APIClient) (compileOk : String → Bool)
    (err : Option String) (res : RestyResponse) : NodeRuleOutcome :=
  match nodeRulePath c with
  | .error e => ⟨[], .err e⟩
  | .ok path =>
    match parseResponse err res path with
    | .error e => ⟨[path], .err e⟩
    | .ok response =>
      match decodeNodeRule response.Data with
      | none => ⟨[path], .err (.decodeError "Unmarshal NodeRule failed")⟩
      | some rl =>
        if rl.Mode ≠ "reject" then ⟨[path], .ok c.LocalRuleList⟩
        else ⟨[path], appendPanelRules compileOk c.LocalRuleList rl.Rules⟩

/-- The body posted for one violation:
`IllegalReport\x7bRuleID: r.RuleID, UID: r.UID, Reason: "XrayR cannot save reason"\x7d`. -/
def toIllegalBody (r : DetectResult) : IllegalReport :=
  ⟨r.RuleID, r.UID, "XrayR cannot save reason"⟩

/-- The `for _, r := range *detectResultList` loop of `ReportIllegal`: one
POST per violation, in order, stopping at the first error.  `respond k` is the
transport outcome of the `k`-th request issued by this call.  Returns the
bodies actually sent and the result. -/
def reportIllegalLoop (respond : Nat → Option String × RestyResponse) (path : String) :
    Nat → List DetectResult → List IllegalReport × Except PPError Unit
  | _, [] => ([], .ok ())
  | i, r :: rest =>
    match parseResponse (respond i).1 (respond i).2 path with
    | .error e => ([toIllegalBody r], .error e)
    | .ok _ =>
      (toIllegalBody r :: (reportIllegalLoop respond path (i + 1) rest).1,
        (reportIllegalLoop respond path (i + 1) rest).2)

/-- `ReportIllegal` (lines 389–420): dispatch, then the per-violation loop. -/
def ReportIllegal (c : APIClient) (respond : Nat → Option String × RestyResponse)
    (detectResultList : List DetectResult) : List IllegalReport × Except PPError Unit :=
  match triggerPath c with
  | .error e => ([], .error e)
  | .ok path => reportIllegalLoop respond path 0 detectResultList

/-- Whether a `parseResponse` outcome is a success. -/
def respIsOk (x : Except PPError Response) : Bool :=
  match x with
  | .ok _ => true
  | .error _ => false

/-- Fixture: a Shadowsocks client with device-limit override `0` and a
nonempty retained state. -/
def clientC2 : APIClient := ⟨"", 1, "", "Shadowsocks", false, false, 0, 0, [], [(7, 3)]⟩

/-- Fixture: a Shadowsocks user-list payload whose single record carries
`device_limit 5` and `online_count 2`. -/
def dataC2 : Json := .arr [.obj [("uid", .num 7), ("password", .str "pw"),
  ("speed_limit", .num 4), ("device_limit", .num 5), ("online_count", .num 2)]]

/-- Fixture: a V2ray client whose local rule list holds one rule. -/
def clientRules : APIClient := ⟨"", 1, "", "V2ray", false, false, 0, 0, [⟨-1, "local"⟩], []⟩

/-- Fixture: a `"reject"`-mode rule payload whose single `"reg"`-typed rule
has the pattern `(`, which fails to compile. -/
def resC4 : RestyResponse := ⟨200, "", ⟨"success", .obj [("mode", .str "reject"),
  ("rules", .arr [.obj [("id", .num 1), ("type", .str "reg"), ("pattern", .str "(")]])]⟩⟩

/-- Fixture: a `"reject"`-mode rule payload whose single rule has the literal
type string `"regex"`. -/
def resC6 : RestyResponse := ⟨200, "", ⟨"success", .obj [("mode", .str "reject"),
  ("rules", .arr [.obj [("id", .num 5), ("type", .str "regex"), ("pattern", .str "abc")]])]⟩⟩

/-- Fixture: a `"reject"`-mode rule payload with one `"reg"`-typed rule and
one rule of an unknown type. -/
def resC6w : RestyResponse := ⟨200, "", ⟨"success", .obj [("mode", .str "reject"),
  ("rules", .arr [.obj [("id", .num 2), ("type", .str "reg"), ("pattern", .str "ok")],
    .obj [("id", .num 3), ("type", .str "other"), ("pattern", .str "x")]])]⟩⟩

/-! Helper lemmas. -/

/-- A node type outside the three known variants is none of the three
literals. -/
theorem protocolSegment_none {t : String} (h : protocolSegment t = none) :
    t ≠ "V2ray" ∧ t ≠ "Trojan" ∧ t ≠ "Shadowsocks" := by
  refine ⟨?_, ?_, ?_⟩ <;> rintro rfl <;> simp [protocolSegment] at h

/-- Inversion of `protocolSegment`: a defined segment pins the node type. -/
theorem protocolSegment_some {t s : String} (h : protocolSegment t = some s) :
    (t = "V2ray" ∧ s = "v2ray") ∨ (t = "Trojan" ∧ s = "trojan") ∨
      (t = "Shadowsocks" ∧ s = "ss") := by
  by_cases h1 : t = "V2ray"
  · subst h1; simp [protocolSegment] at h; exact Or.inl ⟨rfl, h.symm⟩
  · by_cases h2 : t = "Trojan"
    · subst h2; simp [protocolSegment] at h; exact Or.inr (Or.inl ⟨rfl, h.symm⟩)
    · by_cases h3 : t = "Shadowsocks"
      · subst h3; simp [protocolSegment] at h; exact Or.inr (Or.inr ⟨rfl, h.symm⟩)
      · simp [protocolSegment, h1, h2, h3] at h

/-- When every `"reg"`-typed panel rule compiles, the append loop succeeds
and appends exactly the `"reg"`-typed rules, ids and patterns preserved. -/
theorem appendPanelRules_all_ok (compileOk : String → Bool) (rules : List NodeRuleItem) :
    ∀ acc, (∀ r ∈ rules, r.RuleType = "reg" → compileOk r.Pattern = true) →
      appendPanelRules compileOk acc rules =
        .ok (acc ++ (rules.filter (fun r => r.RuleType == "reg")).map
          (fun r => (⟨r.ID, r.Pattern⟩ : DetectRule))) := by
  induction rules with
  | nil => intro acc _; simp [appendPanelRules]
  | cons r rest ih =>
    intro acc h
    by_cases hr : r.RuleType = "reg"
    · have hc : compileOk r.Pattern = true := h r (List.mem_cons_self r rest) hr
      simp only [appendPanelRules]
      rw [if_pos hr, if_pos hc,
        ih (acc ++ [(⟨r.ID, r.Pattern⟩ : DetectRule)])
          (fun x hx hxr => h x (List.mem_cons_of_mem r hx) hxr)]
      simp [List.filter_cons, hr]
    · simp only [appendPanelRules]
      rw [if_neg hr, ih acc (fun x hx hxr => h x (List.mem_cons_of_mem r hx) hxr)]
      simp [List.filter_cons, hr]

/-- Incrementing the entry of `uid` changes its looked-up value by one. -/
theorem lookupOnline_map_incr (m : List (Int × Int)) (uid : Int) :
    lookupOnline (m.map (fun p => if p.1 = uid then (p.1, p.2 + 1) else p)) uid =
      (lookupOnline m uid).map (fun v => v + 1) := by
  induction m with
  | nil => rfl
  | cons p rest ih =>
    by_cases hp : p.1 = uid <;> simp [lookupOnline, hp, ih]

/-- Incrementing the entry of `a` leaves other keys' lookups unchanged. -/
theorem lookupOnline_map_incr_ne (m : List (Int × Int)) (a uid : Int) (h : a ≠ uid) :
    lookupOnline (m.map (fun p => if p.1 = a then (p.1, p.2 + 1) else p)) uid =
      lookupOnline m uid := by
  induction m with
  | nil => rfl
  | cons p rest ih =>
    by_cases hp : p.1 = a
    · have hpu : p.1 ≠ uid := by rw [hp]; exact h
      simp [lookupOnline, hp, hpu, h, ih]
    · by_cases hq : p.1 = uid <;> simp [lookupOnline, hp, hq, Ne.symm h, ih]

/-- Lookup distributes over list append, preferring the first list. -/
theorem lookupOnline_append (m1 m2 : List (Int × Int)) (uid : Int) :
    lookupOnline (m1 ++ m2) uid =
      if (lookupOnline m1 uid).isSome = true then lookupOnline m1 uid
      else lookupOnline m2 uid := by
  induction m1 with
  | nil => simp [lookupOnline]
  | cons p rest ih =>
    by_cases hp : p.1 = uid <;> simp [lookupOnline, hp, ih]

/-- `incrReport` increments the count of its key and touches no other key. -/
theorem lookupOnline_incrReport (m : List (Int × Int)) (a uid : Int) :
    lookupOnline (incrReport m a) uid =
      if a = uid then some ((lookupOnline m a).getD 0 + 1) else lookupOnline m uid := by
  unfold incrReport
  cases hm : lookupOnline m a with
  | some v =>
    by_cases h : a = uid
    · subst h; simp [lookupOnline_map_incr, hm]
    · simp [h, lookupOnline_map_incr_ne m a uid h]
  | none =>
    by_cases h : a = uid
    · subst h
      rw [lookupOnline_append, hm]
      simp [lookupOnline]
    · rw [lookupOnline_append]
      cases hq : lookupOnline m uid <;> simp [lookupOnline, h, hq]

/-- Occurrence counts are nonnegative. -/
theorem occCount_nonneg (l : List OnlineUser) (uid : Int) : 0 ≤ occCount l uid := by
  induction l with
  | nil => simp [occCount]
  | cons u rest ih => by_cases h : u.UID = uid <;> simp [occCount, h] <;> omega

/-- The counting fold of `ReportNodeOnlineUsers`: folding a session list over
`incrReport` adds each user's occurrence count to the accumulator's entry. -/
theorem lookupOnline_foldIncr (l : List OnlineUser) : ∀ (m : List (Int × Int)) (uid : Int),
    (lookupOnline m uid = none →
      lookupOnline (l.foldl (fun m u => incrReport m u.UID) m) uid =
        (if 0 < occCount l uid then some (occCount l uid) else none))
    ∧ (∀ v, lookupOnline m uid = some v →
      lookupOnline (l.foldl (fun m u => incrReport m u.UID) m) uid =
        some (v + occCount l uid)) := by
  induction l with
  | nil =>
    intro m uid
    constructor
    · intro h; simp [h, occCount]
    · intro v h; simp [h, occCount]
  | cons u rest ih =>
    intro m uid
    constructor
    · intro h
      rw [List.foldl_cons]
      by_cases hu : u.UID = uid
      · have h1 : lookupOnline (incrReport m u.UID) uid = some 1 := by
          rw [lookupOnline_incrReport, if_pos hu, hu, h]
          rfl
        rw [(ih (incrReport m u.UID) uid).2 1 h1]
        have hocc : occCount (u :: rest) uid = 1 + occCount rest uid := by
          simp [occCount, hu]
        rw [hocc, if_pos (by have := occCount_nonneg rest uid; omega)]
      · have h1 : lookupOnline (incrReport m u.UID) uid = none := by
          rw [lookupOnline_incrReport, if_neg hu, h]
        rw [(ih (incrReport m u.UID) uid).1 h1]
        have hocc : occCount (u :: rest) uid = occCount rest uid := by
          simp [occCount, hu]
        rw [hocc]
    · intro v h
      rw [List.foldl_cons]
      by_cases hu : u.UID = uid
      · have h1 : lookupOnline (incrReport m u.UID) uid = some (v + 1) := by
          rw [lookupOnline_incrReport, if_pos hu, hu, h]
          rfl
        rw [(ih (incrReport m u.UID) uid).2 (v + 1) h1]
        have hocc : occCount (u :: rest) uid = 1 + occCount rest uid := by
          simp [occCount, hu]
        rw [hocc, add_assoc]
      · have h1 : lookupOnline (incrReport m u.UID) uid = some v := by
          rw [lookupOnline_incrReport, if_neg hu, h]
        rw [(ih (incrReport m u.UID) uid).2 v h1]
        have hocc : occCount (u :: rest) uid = occCount rest uid := by
          simp [occCount, hu]
        rw [hocc]

/-- One undecodable element fails the decoding of the whole list. -/
theorem decodeAll_eq_none {α : Type} (f : Json → Option α) :
    ∀ (xs : List Json) (j : Json), j ∈ xs → f j = none → decodeAll f xs = none := by
  intro xs
  induction xs with
  | nil => intro j h; simp at h
  | cons x rest ih =>
    intro j hmem hj
    rcases List.mem_cons.mp hmem with rfl | hmem2
    · simp [decodeAll, hj]
    · unfold decodeAll
      rw [ih j hmem2 hj]
      cases f x <;> rfl

/-- When every response is a success, the `ReportIllegal` loop posts one body
per violation, in order, and succeeds. -/
theorem reportIllegalLoop_all_ok (respond : Nat → Option String × RestyResponse) (path : String) :
    ∀ (l : List DetectResult) (i : Nat),
      (∀ k, k < l.length →
        respIsOk (parseResponse (respond (i + k)).1 (respond (i + k)).2 path) = true) →
      reportIllegalLoop respond path i l = (l.map toIllegalBody, .ok ()) := by
  intro l
  induction l with
  | nil => intro i _; rfl
  | cons r rest ih =>
    intro i h
    have h0 := h 0 (by simp)
    rw [Nat.add_zero] at h0
    cases hp : parseResponse (respond i).1 (respond i).2 path with
    | error e => rw [hp] at h0; simp [respIsOk] at h0
    | ok resp =>
      simp only [reportIllegalLoop, hp]
      rw [ih (i + 1) ?_]
      · simp
      · intro k hk
        have hh := h (k + 1) (by simpa using Nat.succ_lt_succ hk)
        rw [show i + (k + 1) = i + 1 + k by omega] at hh
        exact hh

/-- When the first failure is at index `k`, the `ReportIllegal` loop posts
exactly the first `k + 1` bodies and returns that failure. -/
theorem reportIllegalLoop_first_err (respond : Nat → Option String × RestyResponse) (path : String) :
    ∀ (l : List DetectResult) (i k : Nat) (e : PPError),
      k < l.length →
      (∀ j, j < k →
        respIsOk (parseResponse (respond (i + j)).1 (respond (i + j)).2 path) = true) →
      parseResponse (respond (i + k)).1 (respond (i + k)).2 path = .error e →
      reportIllegalLoop respond path i l = ((l.take (k + 1)).map toIllegalBody, .error e) := by
  intro l
  induction l with
  | nil => intro i k e hk; simp at hk
  | cons r rest ih =>
    intro i k e hk hpre herr
    cases k with
    | zero =>
      rw [Nat.add_zero] at herr
      simp only [reportIllegalLoop, herr]
      simp
    | succ k2 =>
      have h0 := hpre 0 (Nat.succ_pos k2)
      rw [Nat.add_zero] at h0
      cases hp : parseResponse (respond i).1 (respond i).2 path with
      | error e2 => rw [hp] at h0; simp [respIsOk] at h0
      | ok resp =>
        simp only [reportIllegalLoop, hp]
        rw [ih (i + 1) k2 e (by simpa using Nat.lt_of_succ_lt_succ hk) ?_ ?_]
        · simp
        · intro j hj
          have hh := hpre (j + 1) (Nat.succ_lt_succ hj)
          rw [show i + (j + 1) = i + 1 + j by omega] at hh
          exact hh
        · rw [show i + 1 + k2 = i + (k2 + 1) by omega]
          exact herr

/-! Claim theorems. -/

/-- Claim C1: for every user record processed by the V2ray and Trojan
user-list loops, with base device-limit `L > 0` and reported online count
`O > 0`, and `P` the retained count for the user's id (0 if absent): the
effective device limit is `L - O + P` when that is positive, else `P` when
`P > 0`, else the user is omitted from the returned list; when `L = 0` or
`O = 0` the effective limit is `L` unchanged, and when `O = 0` and a
retained entry exists it is removed from the retained state. -/
theorem c1_device_limit_reconciliation (c : APIClient) (u : VMessUser) (t : TrojanUser)
    (rv : List VMessUser) (rt : List TrojanUser) (st : List (Int × Int)) :
    ((0 < v2BaseLimit c u → 0 < u.OnlineCount →
      ((0 < v2BaseLimit c u - u.OnlineCount + onlineP st u.UID →
        parseV2rayUsersLoop c (u :: rv) st =
          (vmessUserInfo u (v2BaseLimit c u - u.OnlineCount + onlineP st u.UID) (v2SpeedEff c u) ::
            (parseV2rayUsersLoop c rv st).1, (parseV2rayUsersLoop c rv st).2))
      ∧ (¬ 0 < v2BaseLimit c u - u.OnlineCount + onlineP st u.UID → 0 < onlineP st u.UID →
        parseV2rayUsersLoop c (u :: rv) st =
          (vmessUserInfo u (onlineP st u.UID) (v2SpeedEff c u) ::
            (parseV2rayUsersLoop c rv st).1, (parseV2rayUsersLoop c rv st).2))
      ∧ (¬ 0 < v2BaseLimit c u - u.OnlineCount + onlineP st u.UID → ¬ 0 < onlineP st u.UID →
        parseV2rayUsersLoop c (u :: rv) st = parseV2rayUsersLoop c rv st)))
    ∧ ((v2BaseLimit c u = 0 ∨ u.OnlineCount = 0) →
      ((u.OnlineCount = 0 → (lookupOnline st u.UID).isSome = true →
        parseV2rayUsersLoop c (u :: rv) st =
          (vmessUserInfo u (v2BaseLimit c u) (v2SpeedEff c u) ::
            (parseV2rayUsersLoop c rv (eraseOnline st u.UID)).1,
            (parseV2rayUsersLoop c rv (eraseOnline st u.UID)).2))
      ∧ (¬ (u.OnlineCount = 0 ∧ (lookupOnline st u.UID).isSome = true) →
        parseV2rayUsersLoop c (u :: rv) st =
          (vmessUserInfo u (v2BaseLimit c u) (v2SpeedEff c u) ::
            (parseV2rayUsersLoop c rv st).1, (parseV2rayUsersLoop c rv st).2)))))
    ∧ ((0 < trBaseLimit c t → 0 < t.OnlineCount →
      ((0 < trBaseLimit c t - t.OnlineCount + onlineP st t.UID →
        parseTrojanUsersLoop c (t :: rt) st =
          (trojanUserInfo t (trBaseLimit c t - t.OnlineCount + onlineP st t.UID) (trSpeedEff c t) ::
            (parseTrojanUsersLoop c rt st).1, (parseTrojanUsersLoop c rt st).2))
      ∧ (¬ 0 < trBaseLimit c t - t.OnlineCount + onlineP st t.UID → 0 < onlineP st t.UID →
        parseTrojanUsersLoop c (t :: rt) st =
          (trojanUserInfo t (onlineP st t.UID) (trSpeedEff c t) ::
            (parseTrojanUsersLoop c rt st).1, (parseTrojanUsersLoop c rt st).2))
      ∧ (¬ 0 < trBaseLimit c t - t.OnlineCount + onlineP st t.UID → ¬ 0 < onlineP st t.UID →
        parseTrojanUsersLoop c (t :: rt) st = parseTrojanUsersLoop c rt st)))
    ∧ ((trBaseLimit c t = 0 ∨ t.OnlineCount = 0) →
      ((t.OnlineCount = 0 → (lookupOnline st t.UID).isSome = true →
        parseTrojanUsersLoop c (t :: rt) st =
          (trojanUserInfo t (trBaseLimit c t) (trSpeedEff c t) ::
            (parseTrojanUsersLoop c rt (eraseOnline st t.UID)).1,
            (parseTrojanUsersLoop c rt (eraseOnline st t.UID)).2))
      ∧ (¬ (t.OnlineCount = 0 ∧ (lookupOnline st t.UID).isSome = true) →
        parseTrojanUsersLoop c (t :: rt) st =
          (trojanUserInfo t (trBaseLimit c t) (trSpeedEff c t) ::
            (parseTrojanUsersLoop c rt st).1, (parseTrojanUsersLoop c rt st).2))))) := by
  constructor
  · constructor
    · intro hL hO
      refine ⟨?_, ?_, ?_⟩
      · intro hc
        simp only [parseV2rayUsersLoop]
        rw [if_pos ⟨hL, hO⟩, if_pos hc]
      · intro hc hP
        simp only [parseV2rayUsersLoop]
        rw [if_pos ⟨hL, hO⟩, if_neg hc, if_pos hP]
      · intro hc hP
        simp only [parseV2rayUsersLoop]
        rw [if_pos ⟨hL, hO⟩, if_neg hc, if_neg hP]
    · intro hLO
      have hguard : ¬ (0 < v2BaseLimit c u ∧ 0 < u.OnlineCount) := by
        rcases hLO with h | h <;> rintro ⟨h1, h2⟩ <;> omega
      constructor
      · intro hO0 hsome
        simp only [parseV2rayUsersLoop]
        rw [if_neg hguard, if_pos ⟨hO0, hsome⟩]
      · intro hns
        simp only [parseV2rayUsersLoop]
        rw [if_neg hguard, if_neg hns]
  · constructor
    · intro hL hO
      refine ⟨?_, ?_, ?_⟩
      · intro hc
        simp only [parseTrojanUsersLoop]
        rw [if_pos ⟨hL, hO⟩, if_pos hc]
      · intro hc hP
        simp only [parseTrojanUsersLoop]
        rw [if_pos ⟨hL, hO⟩, if_neg hc, if_pos hP]
      · intro hc hP
        simp only [parseTrojanUsersLoop]
        rw [if_pos ⟨hL, hO⟩, if_neg hc, if_neg hP]
    · intro hLO
      have hguard : ¬ (0 < trBaseLimit c t ∧ 0 < t.OnlineCount) := by
        rcases hLO with h | h <;> rintro ⟨h1, h2⟩ <;> omega
      constructor
      · intro hO0 hsome
        simp only [parseTrojanUsersLoop]
        rw [if_neg hguard, if_pos ⟨hO0, hsome⟩]
      · intro hns
        simp only [parseTrojanUsersLoop]
        rw [if_neg hguard, if_neg hns]

/-- Claim C1 witness: the spec's worked example `L=5, O=6, P=3` yields
effective limit `2`, for both the V2ray and the Trojan loop. -/
theorem c1_witness :
    parseV2rayUsersLoop ⟨"", 1, "", "V2ray", false, false, 0, 5, [], [(7, 3)]⟩
        [⟨7, "uu", 11, 9, 6⟩] [(7, 3)] = ([⟨7, "", "", "uu", 2, 11⟩], [(7, 3)])
    ∧ parseTrojanUsersLoop ⟨"", 1, "", "V2ray", false, false, 0, 5, [], [(7, 3)]⟩
        [⟨7, "pw", 11, 9, 6⟩] [(7, 3)] = ([⟨7, "", "", "pw", 2, 11⟩], [(7, 3)]) :=
  ⟨((c1_device_limit_reconciliation ⟨"", 1, "", "V2ray", false, false, 0, 5, [], [(7, 3)]⟩
      ⟨7, "uu", 11, 9, 6⟩ ⟨7, "pw", 11, 9, 6⟩ [] [] [(7, 3)]).1.1
      (by decide) (by decide)).1 (by decide),
    ((c1_device_limit_reconciliation ⟨"", 1, "", "V2ray", false, false, 0, 5, [], [(7, 3)]⟩
      ⟨7, "uu", 11, 9, 6⟩ ⟨7, "pw", 11, 9, 6⟩ [] [] [(7, 3)]).2.1
      (by decide) (by decide)).1 (by decide)⟩

/-- Claim C2 counterexample: a Shadowsocks user whose payload supplies
device-limit `5`, with client override `0`, is normalized with effective
device limit `0` (the client value), not the payload value `5`, and the
retained state is untouched — refuting the claimed identical field-mapping
and reconciliation for the Shadowsocks variant. -/
theorem c2_counterexample :
    ParseSSUserListResponse clientC2 dataC2 = (.ok [⟨7, "", "pw", "", 0, 4⟩], [(7, 3)])
    ∧ decodeSSUserList dataC2 = some [⟨7, "pw", 4, 5, 2⟩]
    ∧ (0 : Int) ≠ 5 :=
  ⟨rfl, rfl, by decide⟩

/-- Claim C2 (amended): the Shadowsocks speed-limit mapping matches the other
variants, but the device-limit policy differs — every Shadowsocks user's
effective device limit is the client-configured value unconditionally (even
when it is 0), the payload's device-limit is ignored, no user is dropped, and
no §4.2 reconciliation or retained-state mutation occurs. -/
theorem c2_ss_device_limit (c : APIClient) (users : List SSUser) :
    (parseSSUsersLoop c users).map (fun u => u.DeviceLimit) = users.map (fun _ => c.DeviceLimit)
    ∧ (parseSSUsersLoop c users).map (fun u => u.SpeedLimit) = users.map (fun u => ssSpeedEff c u)
    ∧ (parseSSUsersLoop c users).map (fun u => u.UID) = users.map (fun u => u.UID)
    ∧ ∀ data, (ParseSSUserListResponse c data).2 = c.LastReportOnline := by
  refine ⟨?_, ?_, ?_, ?_⟩
  · induction users with
    | nil => rfl
    | cons u rest ih => simp [parseSSUsersLoop, ssUserInfo, ih]
  · induction users with
    | nil => rfl
    | cons u rest ih => simp [parseSSUsersLoop, ssUserInfo, ih]
  · induction users with
    | nil => rfl
    | cons u rest ih => simp [parseSSUsersLoop, ssUserInfo, ih]
  · intro data
    unfold ParseSSUserListResponse
    rcases h : decodeSSUserList data with _ | users2 <;> simp [h]

/-- Claim C3: the online-report operation replaces the whole retained mapping
with fresh per-user occurrence counts of the reported session list — a user
id maps to its occurrence count when positive and has no entry otherwise,
independently of the previous mapping. -/
theorem c3_online_report_replaces_state (c : APIClient) (l : List OnlineUser)
    (err : Option String) (res : RestyResponse) (path : String)
    (h : nodeOnlinePath c = .ok path) (uid : Int) :
    lookupOnline (ReportNodeOnlineUsers c l err res).1 uid =
      if 0 < occCount l uid then some (occCount l uid) else none := by
  have hb : lookupOnline (buildReportOnline l) uid =
      if 0 < occCount l uid then some (occCount l uid) else none :=
    (lookupOnline_foldIncr l [] uid).1 rfl
  simp only [ReportNodeOnlineUsers, h]
  cases parseResponse err res path <;> simpa using hb

/-- Claim C3 witness: after reporting `[7, 7, 9]`, the stale entry for user 3
is gone and user 7 maps to 2. -/
theorem c3_witness :
    lookupOnline (ReportNodeOnlineUsers ⟨"", 1, "", "V2ray", false, false, 0, 0, [], [(3, 5)]⟩
        [⟨7, "a"⟩, ⟨7, "b"⟩, ⟨9, "c"⟩] none ⟨200, "", ⟨"success", Json.null⟩⟩).1 3 = none
    ∧ lookupOnline (ReportNodeOnlineUsers ⟨"", 1, "", "V2ray", false, false, 0, 0, [], [(3, 5)]⟩
        [⟨7, "a"⟩, ⟨7, "b"⟩, ⟨9, "c"⟩] none ⟨200, "", ⟨"success", Json.null⟩⟩).1 7 = some 2 := by
  constructor
  · rw [c3_online_report_replaces_state ⟨"", 1, "", "V2ray", false, false, 0, 0, [], [(3, 5)]⟩
      [⟨7, "a"⟩, ⟨7, "b"⟩, ⟨9, "c"⟩] none ⟨200, "", ⟨"success", Json.null⟩⟩
      "/api/v2ray/v1/nodeOnline/1" rfl 3]
    decide
  · rw [c3_online_report_replaces_state ⟨"", 1, "", "V2ray", false, false, 0, 0, [], [(3, 5)]⟩
      [⟨7, "a"⟩, ⟨7, "b"⟩, ⟨9, "c"⟩] none ⟨200, "", ⟨"success", Json.null⟩⟩
      "/api/v2ray/v1/nodeOnline/1" rfl 7]
    decide

/-- Claim C4 (code bug): on a `"reject"`-mode rule set containing a
`"reg"`-typed rule whose pattern fails to compile, `GetNodeRule` does not
return an error for that poll cycle — `regexp.MustCompile` aborts the
process (first conjunct); had the pattern compiled, the rule would have been
appended normally (second conjunct). -/
theorem c4_mustcompile_aborts :
    (GetNodeRule clientRules (fun p => !(p == "(")) none resC4).result = .aborted "("
    ∧ (GetNodeRule clientRules (fun _ => true) none resC4).result =
      .ok [⟨-1, "local"⟩, ⟨1, "("⟩] :=
  ⟨rfl, rfl⟩

/-- Claim C5 counterexample: a response with HTTP status exactly 400 is not
treated as a transport-level failure — with a success envelope it is accepted
outright, and with a non-success envelope the returned error is the semantic
envelope failure, not a transport failure. -/
theorem c5_counterexample :
    parseResponse none ⟨400, "", ⟨"success", Json.null⟩⟩ "/p" = .ok ⟨"success", Json.null⟩
    ∧ parseResponse none ⟨400, "", ⟨"", Json.null⟩⟩ "/p" =
        .error (.envelopeError (jsonSerialize (Json.obj
          [("status", Json.str ""), ("data", Json.null)])))
    ∧ isTransportFailure (.envelopeError (jsonSerialize (Json.obj
        [("status", Json.str ""), ("data", Json.null)]))) = false :=
  ⟨rfl, rfl, rfl⟩

/-- Claim C5 (amended): a request error, or an HTTP status code strictly
greater than 400, is a transport-level failure; a response with status code
at most 400 is handled by envelope validation — a non-success envelope is a
semantic (non-transport) failure carrying the serialized envelope, and a
success envelope is accepted. -/
theorem c5_envelope_validation (err : Option String) (res : RestyResponse) (path : String) :
    (∀ e, err = some e →
      parseResponse err res path = .error (.requestError path e)
      ∧ isTransportFailure (.requestError path e) = true)
    ∧ (err = none → 400 < res.statusCode →
      parseResponse err res path = .error (.statusCodeError path res.body)
      ∧ isTransportFailure (.statusCodeError path res.body) = true)
    ∧ (err = none → res.statusCode ≤ 400 → res.result.Status ≠ "success" →
      parseResponse err res path = .error (.envelopeError (jsonSerialize (Json.obj
        [("status", Json.str res.result.Status), ("data", res.result.Data)])))
      ∧ isTransportFailure (.envelopeError (jsonSerialize (Json.obj
        [("status", Json.str res.result.Status), ("data", res.result.Data)]))) = false)
    ∧ (err = none → res.statusCode ≤ 400 → res.result.Status = "success" →
      parseResponse err res path = .ok res.result) := by
  refine ⟨?_, ?_, ?_, ?_⟩
  · rintro e rfl
    exact ⟨rfl, rfl⟩
  · rintro rfl h
    refine ⟨?_, rfl⟩
    simp only [parseResponse]
    rw [if_pos h]
  · rintro rfl hle hst
    refine ⟨?_, rfl⟩
    simp only [parseResponse]
    rw [if_neg (by omega), if_pos hst]
  · rintro rfl hle hst
    simp only [parseResponse]
    rw [if_neg (by omega), if_neg (not_not_intro hst)]

/-- Claim C5 witness: a 200 response with a `"fail"` envelope yields the
semantic envelope failure carrying the serialized envelope. -/
theorem c5_witness :
    parseResponse none ⟨200, "", ⟨"fail", Json.null⟩⟩ "/w" =
      .error (.envelopeError (jsonSerialize (Json.obj
        [("status", Json.str "fail"), ("data", Json.null)])))
    ∧ isTransportFailure (.envelopeError (jsonSerialize (Json.obj
        [("status", Json.str "fail"), ("data", Json.null)]))) = false :=
  (c5_envelope_validation none ⟨200, "", ⟨"fail", Json.null⟩⟩ "/w").2.2.1 rfl (by decide) (by decide)

/-- Claim C6 counterexample: in `"reject"` mode, a panel rule with the
literal type string `"regex"` is silently skipped, not appended — the rule
loop only matches the type string `"reg"`. -/
theorem c6_counterexample :
    (GetNodeRule clientRules (fun _ => true) none resC6).result = .ok [⟨-1, "local"⟩]
    ∧ (GetNodeRule clientRules (fun _ => true) none resC6).result ≠
      .ok [⟨-1, "local"⟩, ⟨5, "abc"⟩] :=
  ⟨rfl, by decide⟩

/-- Claim C6 (amended): when the panel mode is not `"reject"`, `GetNodeRule`
returns exactly the local rule set, unmodified, even when the panel supplies
rules; when the mode is `"reject"`, it returns the local set followed by
every panel rule whose type string is `"reg"` (pattern compiled, id
preserved), and panel rules of any other type — including `"regex"` — are
silently skipped. -/
theorem c6_rule_aggregation (c : APIClient) (compileOk : String → Bool)
    (err : Option String) (res : RestyResponse) (path : String) (rl : NodeRule)
    (hpath : nodeRulePath c = .ok path)
    (hresp : parseResponse err res path = .ok res.result)
    (hdec : decodeNodeRule res.result.Data = some rl) :
    (rl.Mode ≠ "reject" → GetNodeRule c compileOk err res = ⟨[path], .ok c.LocalRuleList⟩)
    ∧ (rl.Mode = "reject" →
        (∀ r ∈ rl.Rules, r.RuleType = "reg" → compileOk r.Pattern = true) →
        GetNodeRule c compileOk err res = ⟨[path], .ok (c.LocalRuleList ++
          (rl.Rules.filter (fun r => r.RuleType == "reg")).map
            (fun r => (⟨r.ID, r.Pattern⟩ : DetectRule)))⟩) := by
  constructor
  · intro hm
    simp only [GetNodeRule, hpath, hresp, hdec]
    rw [if_pos hm]
  · intro hm hcomp
    simp only [GetNodeRule, hpath, hresp, hdec]
    rw [if_neg (not_not_intro hm), appendPanelRules_all_ok compileOk rl.Rules c.LocalRuleList hcomp]

/-- Claim C6 witness: in `"reject"` mode, the `"reg"`-typed rule (id 2) is
appended after the local set and the `"other"`-typed rule is skipped. -/
theorem c6_witness :
    GetNodeRule clientRules (fun _ => true) none resC6w =
      ⟨["/api/v2ray/v1/nodeRule/1"], .ok [⟨-1, "local"⟩, ⟨2, "ok"⟩]⟩ :=
  (c6_rule_aggregation clientRules (fun _ => true) none resC6w "/api/v2ray/v1/nodeRule/1"
    ⟨"reject", [⟨2, "reg", "ok"⟩, ⟨3, "other", "x"⟩]⟩ rfl rfl rfl).2 rfl
    (fun _ _ _ => rfl)

/-- Claim C7: for all three variants, a user-list payload containing one
record that fails to decode fails the whole fetch with a decode error — no
user list is returned and the retained state is untouched. -/
theorem c7_atomic_user_list_decode (c : APIClient) (res : RestyResponse)
    (xs : List Json) (j : Json)
    (hcode : res.statusCode ≤ 400) (hst : res.result.Status = "success")
    (hdata : res.result.Data = Json.arr xs) (hmem : j ∈ xs) :
    (c.NodeType = "V2ray" → decodeVMessUser j = none →
      GetUserList c none res = ⟨["/api/v2ray/v1/userList/" ++ toString c.NodeID],
        .error (.decodeError ("Parse user list failed: " ++ jsonSerialize res.result.Data)),
        c.LastReportOnline⟩)
    ∧ (c.NodeType = "Trojan" → decodeTrojanUser j = none →
      GetUserList c none res = ⟨["/api/trojan/v1/userList/" ++ toString c.NodeID],
        .error (.decodeError ("Parse user list failed: " ++ jsonSerialize res.result.Data)),
        c.LastReportOnline⟩)
    ∧ (c.NodeType = "Shadowsocks" → decodeSSUser j = none →
      GetUserList c none res = ⟨["/api/ss/v1/userList/" ++ toString c.NodeID],
        .error (.decodeError ("Parse user list failed: " ++ jsonSerialize res.result.Data)),
        c.LastReportOnline⟩) := by
  have hresp : ∀ p, parseResponse none res p = .ok res.result := by
    intro p
    simp only [parseResponse]
    rw [if_neg (by omega), if_neg (not_not_intro hst)]
  refine ⟨?_, ?_, ?_⟩
  · intro hnt hj
    have hpath : getUserListPath c = .ok ("/api/v2ray/v1/userList/" ++ toString c.NodeID) := by
      simp [getUserListPath, hnt]
    have hdl : decodeVMessUserList res.result.Data = none := by
      rw [hdata]
      simpa [decodeVMessUserList] using decodeAll_eq_none decodeVMessUser xs j hmem hj
    have hparse : ParseV2rayUserListResponse c res.result.Data =
        (.error (.decodeError "Unmarshal VMessUser failed"), c.LastReportOnline) := by
      unfold ParseV2rayUserListResponse
      rw [hdl]
    simp only [GetUserList, hpath, hresp, hnt, if_pos, hparse]
  · intro hnt hj
    have hpath : getUserListPath c = .ok ("/api/trojan/v1/userList/" ++ toString c.NodeID) := by
      simp [getUserListPath, hnt]
    have hdl : decodeTrojanUserList res.result.Data = none := by
      rw [hdata]
      simpa [decodeTrojanUserList] using decodeAll_eq_none decodeTrojanUser xs j hmem hj
    have hparse : ParseTrojanUserListResponse c res.result.Data =
        (.error (.decodeError "Unmarshal TrojanUser failed"), c.LastReportOnline) := by
      unfold ParseTrojanUserListResponse
      rw [hdl]
    simp only [GetUserList, hpath, hresp, hnt, hparse]
    simp
  · intro hnt hj
    have hpath : getUserListPath c = .ok ("/api/ss/v1/userList/" ++ toString c.NodeID) := by
      simp [getUserListPath, hnt]
    have hdl : decodeSSUserList res.result.Data = none := by
      rw [hdata]
      simpa [decodeSSUserList] using decodeAll_eq_none decodeSSUser xs j hmem hj
    have hparse : ParseSSUserListResponse c res.result.Data =
        (.error (.decodeError "Unmarshal SSUser failed"), c.LastReportOnline) := by
      unfold ParseSSUserListResponse
      rw [hdl]
    simp only [GetUserList, hpath, hresp, hnt, hparse]
    simp

/-- Claim C7 witness: a V2ray user-list payload whose single record is a
string fails the whole fetch with a decode error. -/
theorem c7_witness :
    GetUserList ⟨"", 2, "", "V2ray", false, false, 0, 0, [], []⟩ none
        ⟨200, "", ⟨"success", Json.arr [Json.str "bad"]⟩⟩ =
      ⟨["/api/v2ray/v1/userList/" ++ toString (2 : Int)],
        .error (.decodeError ("Parse user list failed: " ++
          jsonSerialize (Json.arr [Json.str "bad"]))), []⟩ :=
  (c7_atomic_user_list_decode ⟨"", 2, "", "V2ray", false, false, 0, 0, [], []⟩
    ⟨200, "", ⟨"success", Json.arr [Json.str "bad"]⟩⟩ [Json.str "bad"] (Json.str "bad")
    (by decide) rfl rfl (by simp)).1 rfl rfl

/-- Claim C8: every façade operation fails with `UnsupportedNodeType`, with
no request issued, when the node type is not one of the three known variants;
otherwise each operation resolves its endpoint path as
`/api/` + segment + `/v1/` + operation + `/` + node id, with the segment
determined by the node type. -/
theorem c8_node_type_dispatch (c : APIClient) (err : Option String) (res : RestyResponse)
    (tr : List UserTraffic) (ol : List OnlineUser) (dr : List DetectResult)
    (compileOk : String → Bool) (respond : Nat → Option String × RestyResponse) :
    (protocolSegment c.NodeType = none →
      GetNodeInfo c err res = ([], .error (.unsupportedNodeType c.NodeType))
      ∧ GetUserList c err res = ⟨[], .error (.unsupportedNodeType c.NodeType), c.LastReportOnline⟩
      ∧ ReportNodeStatus c err res = ([], .error (.unsupportedNodeType c.NodeType))
      ∧ ReportNodeOnlineUsers c ol err res =
          (c.LastReportOnline, [], .error (.unsupportedNodeType c.NodeType))
      ∧ ReportUserTraffic c tr err res = ([], .error (.unsupportedNodeType c.NodeType))
      ∧ GetNodeRule c compileOk err res = ⟨[], .err (.unsupportedNodeType c.NodeType)⟩
      ∧ ReportIllegal c respond dr = ([], .error (.unsupportedNodeType c.NodeType)))
    ∧ (∀ s, protocolSegment c.NodeType = some s →
      getNodeInfoPath c = .ok ("/api/" ++ s ++ "/v1/node/" ++ toString c.NodeID)
      ∧ getUserListPath c = .ok ("/api/" ++ s ++ "/v1/userList/" ++ toString c.NodeID)
      ∧ reportNodeStatusPath c = .ok ("/api/" ++ s ++ "/v1/nodeStatus/" ++ toString c.NodeID)
      ∧ nodeOnlinePath c = .ok ("/api/" ++ s ++ "/v1/nodeOnline/" ++ toString c.NodeID)
      ∧ userTrafficPath c = .ok ("/api/" ++ s ++ "/v1/userTraffic/" ++ toString c.NodeID)
      ∧ nodeRulePath c = .ok ("/api/" ++ s ++ "/v1/nodeRule/" ++ toString c.NodeID)
      ∧ triggerPath c = .ok ("/api/" ++ s ++ "/v1/trigger/" ++ toString c.NodeID)) := by
  constructor
  · intro h
    obtain ⟨h1, h2, h3⟩ := protocolSegment_none h
    refine ⟨?_, ?_, ?_, ?_, ?_, ?_, ?_⟩
    · have hp : getNodeInfoPath c = .error (.unsupportedNodeType c.NodeType) := by
        simp [getNodeInfoPath, h1, h2, h3]
      simp [GetNodeInfo, hp]
    · have hp : getUserListPath c = .error (.unsupportedNodeType c.NodeType) := by
        simp [getUserListPath, h1, h2, h3]
      simp [GetUserList, hp]
    · have hp : reportNodeStatusPath c = .error (.unsupportedNodeType c.NodeType) := by
        simp [reportNodeStatusPath, h1, h2, h3]
      simp [ReportNodeStatus, hp]
    · have hp : nodeOnlinePath c = .error (.unsupportedNodeType c.NodeType) := by
        simp [nodeOnlinePath, h1, h2, h3]
      simp [ReportNodeOnlineUsers, hp]
    · have hp : userTrafficPath c = .error (.unsupportedNodeType c.NodeType) := by
        simp [userTrafficPath, h1, h2, h3]
      simp [ReportUserTraffic, hp]
    · have hp : nodeRulePath c = .error (.unsupportedNodeType c.NodeType) := by
        simp [nodeRulePath, h1, h2, h3]
      simp [GetNodeRule, hp]
    · have hp : triggerPath c = .error (.unsupportedNodeType c.NodeType) := by
        simp [triggerPath, h1, h2, h3]
      simp [ReportIllegal, hp]
  · intro s h
    rcases protocolSegment_some h with ⟨h1, hs⟩ | ⟨h1, hs⟩ | ⟨h1, hs⟩ <;> subst hs <;>
      exact ⟨by simp [getNodeInfoPath, h1], by simp [getUserListPath, h1],
        by simp [reportNodeStatusPath, h1], by simp [nodeOnlinePath, h1],
        by simp [userTrafficPath, h1], by simp [nodeRulePath, h1], by simp [triggerPath, h1]⟩

/-- Claim C8 witness: an unknown node type `"WireGuard"` fails the user-list
fetch with `UnsupportedNodeType` and no request; a Shadowsocks client with
node id 12 resolves the trigger path to `/api/ss/v1/trigger/12`. -/
theorem c8_witness :
    GetUserList ⟨"", 9, "", "WireGuard", false, false, 0, 0, [], []⟩ none
        ⟨200, "", ⟨"success", Json.null⟩⟩ =
      ⟨[], .error (.unsupportedNodeType "WireGuard"), []⟩
    ∧ triggerPath ⟨"", 12, "", "Shadowsocks", false, false, 0, 0, [], []⟩ =
      .ok ("/api/" ++ "ss" ++ "/v1/trigger/" ++ toString (12 : Int)) :=
  ⟨((c8_node_type_dispatch ⟨"", 9, "", "WireGuard", false, false, 0, 0, [], []⟩ none
      ⟨200, "", ⟨"success", Json.null⟩⟩ [] [] [] (fun _ => true)
      (fun _ => (none, ⟨200, "", ⟨"success", Json.null⟩⟩))).1 (by decide)).2.1,
    ((c8_node_type_dispatch ⟨"", 12, "", "Shadowsocks", false, false, 0, 0, [], []⟩ none
      ⟨200, "", ⟨"success", Json.null⟩⟩ [] [] [] (fun _ => true)
      (fun _ => (none, ⟨200, "", ⟨"success", Json.null⟩⟩))).2
      "ss" (by decide)).2.2.2.2.2.2⟩

/-- Claim C9: `ReportIllegal` posts each violation as a separate request in
input order; when every request succeeds it returns success having sent all
bodies, and when the first failure occurs at index `k` it returns that error
having sent exactly the first `k + 1` bodies (no rollback). -/
theorem c9_report_violations (c : APIClient) (respond : Nat → Option String × RestyResponse)
    (l : List DetectResult) (path : String) (h : triggerPath c = .ok path) :
    ((∀ k, k < l.length → respIsOk (parseResponse (respond k).1 (respond k).2 path) = true) →
      ReportIllegal c respond l = (l.map toIllegalBody, .ok ()))
    ∧ (∀ k e, k < l.length →
        (∀ j, j < k → respIsOk (parseResponse (respond j).1 (respond j).2 path) = true) →
        parseResponse (respond k).1 (respond k).2 path = .error e →
        ReportIllegal c respond l = ((l.take (k + 1)).map toIllegalBody, .error e)) := by
  constructor
  · intro hall
    simp only [ReportIllegal, h]
    exact reportIllegalLoop_all_ok respond path l 0 (by simpa using hall)
  · intro k e hk hpre herr
    simp only [ReportIllegal, h]
    exact reportIllegalLoop_first_err respond path l 0 k e hk (by simpa using hpre)
      (by simpa using herr)

/-- Claim C9 witness: with three violations and the transport failing from
the second request on, exactly the first two bodies are sent, in order, and
the second request's error is returned. -/
theorem c9_witness :
    ReportIllegal ⟨"", 1, "", "V2ray", false, false, 0, 0, [], []⟩
        (fun k => if k = 0 then (none, ⟨200, "", ⟨"success", Json.null⟩⟩)
          else (some "boom", ⟨200, "", ⟨"success", Json.null⟩⟩))
        [⟨7, 1⟩, ⟨8, 2⟩, ⟨9, 3⟩] =
      ([⟨1, 7, "XrayR cannot save reason"⟩, ⟨2, 8, "XrayR cannot save reason"⟩],
        .error (.requestError "/api/v2ray/v1/trigger/1" "boom")) :=
  (c9_report_violations ⟨"", 1, "", "V2ray", false, false, 0, 0, [], []⟩
    (fun k => if k = 0 then (none, ⟨200, "", ⟨"success", Json.null⟩⟩)
      else (some "boom", ⟨200, "", ⟨"success", Json.null⟩⟩))
    [⟨7, 1⟩, ⟨8, 2⟩, ⟨9, 3⟩] "/api/v2ray/v1/trigger/1" rfl).2 1
    (.requestError "/api/v2ray/v1/trigger/1" "boom") (by decide)
    (by intro j hj
        have hj0 : j = 0 := by omega
        subst hj0
        rfl)
    rfl

/-- Claim C10: `ReportNodeOnlineUsers` replaces the retained session-count
mapping with the new report's counts before issuing the HTTP request, so the
new mapping is in place whatever the request's outcome — including transport
and envelope errors. -/
theorem c10_state_updated_before_request (c : APIClient) (l : List OnlineUser)
    (err : Option String) (res : RestyResponse) (path : String)
    (h : nodeOnlinePath c = .ok path) :
    (ReportNodeOnlineUsers c l err res).1 = buildReportOnline l := by
  simp only [ReportNodeOnlineUsers, h]
  cases parseResponse err res path <;> rfl

/-- Claim C10 witness: on a transport timeout the operation returns the
request error, yet the retained mapping has been replaced by the report's
counts. -/
theorem c10_witness :
    (ReportNodeOnlineUsers ⟨"", 1, "", "V2ray", false, false, 0, 0, [], [(3, 5)]⟩
        [⟨7, "a"⟩] (some "timeout") ⟨200, "", ⟨"success", Json.null⟩⟩).1 =
      buildReportOnline [⟨7, "a"⟩]
    ∧ (ReportNodeOnlineUsers ⟨"", 1, "", "V2ray", false, false, 0, 0, [], [(3, 5)]⟩
        [⟨7, "a"⟩] (some "timeout") ⟨200, "", ⟨"success", Json.null⟩⟩).2.2 =
      .error (.requestError "/api/v2ray/v1/nodeOnline/1" "timeout") :=
  ⟨c10_state_updated_before_request ⟨"", 1, "", "V2ray", false, false, 0, 0, [], [(3, 5)]⟩
      [⟨7, "a"⟩] (some "timeout") ⟨200, "", ⟨"success", Json.null⟩⟩
      "/api/v2ray/v1/nodeOnline/1" rfl,
    rfl⟩

end ProxyPanel
